import Mathlib

/-!
Verification of the Advent-of-Code Swift project generator
(`generate_aoc_project.py`).

The generator is a deterministic template expander: given `(year, days)` it
writes a fixed sequence of text files under `AdventOfCode<year>/`, then
best-effort runs three git commands.  We embed it shallowly:

* each Python template function (`package_swift`, `gitignore_contents`,
  `protocol_file`, `root_cli`, `day_file`, `test_file`, `readme_file`)
  becomes a Lean function producing the exact same text (Python f-string
  `{{`/`}}` render as literal braces, written `\x7b`/`\x7d` here);
* the sequence of `write(path, contents)` calls performed by `main`
  becomes the list `generatedWrites`;
* the filesystem becomes a map from paths (segment lists) to contents,
  with `write` as overwrite (`mkdir(parents=True, exist_ok=True)` followed
  by `write_text`);
* `main`'s argv handling, `int()` parsing, git bootstrap and console
  output become `pyMain`, with git modelled as an oracle from command to
  optional exception message.
-/

namespace AocGen

/-- Python `f"{n:02d}"` for a nonnegative integer: decimal digits,
zero-padded on the left to width 2. -/
def pad2 (n : Nat) : String :=
  if n < 10 then "0" ++ Nat.repr n else Nat.repr n

/-- Python `f"AdventOfCode{year}"`. -/
def projectName (year : Int) : String :=
  "AdventOfCode" ++ toString year

/-- Template `package_swift(project_name)` (lines 12-38 of the source). -/
def package_swift (project_name : String) : String :=
  "// swift-tools-version: 6.0\n\nimport PackageDescription\n\nlet package = Package(\n  name: \""
  ++ project_name
  ++ "\",\n  platforms: [.macOS(.v13)],\n  products: [\n    .executable(name: \""
  ++ project_name
  ++ "\", targets: [\""
  ++ project_name
  ++ "\"])\n  ],\n  dependencies: [\n    .package(url: \"https://github.com/apple/swift-argument-parser.git\", from: \"1.3.0\")\n  ],\n  targets: [\n    .executableTarget(\n      name: \""
  ++ project_name
  ++ "\",\n      dependencies: [.product(name: \"ArgumentParser\", package: \"swift-argument-parser\")],\n      resources: [.copy(\"Inputs\")]\n    ),\n    .testTarget(\n      name: \""
  ++ project_name
  ++ "Tests\",\n      dependencies: [\""
  ++ project_name
  ++ "\"]\n    )\n  ]\n)\n"

/-- Template `gitignore_contents()` (lines 40-58 of the source). -/
def gitignore_contents : String :=
  "# Swift Package Manager\n.build/\n.swiftpm/\nPackage.resolved\n\n# Xcode\n.DS_Store\nxcuserdata/\nDerivedData/\n*.xcworkspace\n*.xcodeproj\n\n# Logs\n*.log\n\n# Advent of Code Inputs\nInputs/\n"

/-- Template `protocol_file(year)` (lines 60-133 of the source): the shared
`AdventOfCodeDay` protocol plus default run/input behaviour. -/
def protocol_file (year : Int) : String :=
  "import ArgumentParser\nimport Foundation\n\nprotocol AdventOfCodeDay: AsyncParsableCommand \x7b\n  static var day: Int \x7b get \x7d\n\n  func parse(_ input: String) async throws -> String\n  func part1(_ input: String) async throws -> String\n  func part2(_ input: String) async throws -> String\n\x7d\n\nextension AdventOfCodeDay \x7b\n  static var configuration: CommandConfiguration \x7b\n    .init(\n      commandName: \"day\\(Self.day)\",\n      abstract: \"Run Advent of Code Day \\(Self.day)\"\n    )\n  \x7d\n\n  mutating func run() async throws \x7b\n    let input = try await input(day: Self.day)\n    let parsed = try await parse(input)\n    let part1 = try await part1(parsed)\n    let part2 = try await part2(parsed)\n    print(\"Part 1: \\(part1)\")\n    print(\"Part 2: \\(part2)\")\n  \x7d\n\n  private func input(day: Int) async throws -> String \x7b\n    let fileName = \"day\" + String(format: \"%02d\", day) + \".txt\"\n    \n    guard let fileURL = Bundle.module.url(forResource: fileName, withExtension: nil, subdirectory: \"Inputs\") else \x7b\n      return try await remoteInput(day: day)\n    \x7d\n    \n    let inputFileString = try String(contentsOf: fileURL, encoding: .utf8)\n    \n    guard !inputFileString.isEmpty else \x7b\n      return try await remoteInput(day: day)\n    \x7d\n    \n    print(\"Using local input for day \\(day)\")\n    return inputFileString\n  \x7d\n  \n  private func remoteInput(day: Int) async throws -> String \x7b\n    print(\"Downloading input for day \\(day)...\")\n    \n    guard let session = ProcessInfo.processInfo.environment[\"AOC_SESSION\"], !session.isEmpty else \x7b\n      fatalError(\"Please set your AOC_SESSION environment variable to your Advent of Code session cookie.\")\n    \x7d\n    \n    guard let url = URL(string: \"https://adventofcode.com/"
  ++ toString year
  ++ "/day/\\(day)/input\") else \x7b\n      fatalError(\"Failed to construct input URL for day \\(day), year "
  ++ toString year
  ++ "\")\n    \x7d\n    \n    var request = URLRequest(url: url)\n    request.setValue(\"session=\\(session)\", forHTTPHeaderField: \"Cookie\")\n\n    let (data, response) = try await URLSession.shared.data(for: request)\n\n    guard let httpResponse = response as? HTTPURLResponse, httpResponse.statusCode == 200 else \x7b\n      fatalError(\"Failed to download input for day \\(day)\")\n    \x7d\n\n    guard let downloadedString = String(data: data, encoding: .utf8) else \x7b\n      fatalError(\"Unable to decode downloaded input data for day \\(day)\")\n    \x7d\n    \n    return downloadedString\n  \x7d\n\x7d\n"

/-- Template `root_cli(subcommands, year)` (lines 135-151 of the source). -/
def root_cli (subcmds : List String) (year : Int) : String :=
  "import ArgumentParser\n\n@main\nstruct "
  ++ ("AdventOfCode" ++ toString year)
  ++ ": AsyncParsableCommand \x7b\n  static let configuration: CommandConfiguration = .init(\n    commandName: \""
  ++ ("aoc-" ++ toString year)
  ++ "\",\n    abstract: \"Run Advent of Code solutions for "
  ++ toString year
  ++ "\",\n    subcommands: [\n      "
  ++ String.intercalate ",\n      " subcmds
  ++ "\n    ]\n  )\n\x7d\n"

/-- Body of the generated `parse` (part of `day_file`, lines 159-161). -/
def parseBlock : String :=
  "func parse(_ input: String) async throws -> String \x7b\n    input.trimmingCharacters(in: .whitespacesAndNewlines)\n  \x7d"

/-- Body of the generated `part1` (part of `day_file`, lines 163-165). -/
def part1Block : String :=
  "func part1(_ input: String) async throws -> String \x7b\n    \"Not implemented\"\n  \x7d"

/-- Body of the generated `part2` (part of `day_file`, lines 167-169). -/
def part2Block : String :=
  "func part2(_ input: String) async throws -> String \x7b\n    \"Not implemented\"\n  \x7d"

/-- Template `day_file(day)` (lines 153-171 of the source). -/
def day_file (day : Nat) : String :=
  "import ArgumentParser\n\nstruct Day"
  ++ pad2 day
  ++ ": AdventOfCodeDay \x7b\n  static let day = "
  ++ Nat.repr day
  ++ "\n\n  "
  ++ parseBlock
  ++ "\n\n  "
  ++ part1Block
  ++ "\n\n  "
  ++ part2Block
  ++ "\n\x7d\n"

/-- The `part1` assertion of the generated test (lines 192-193). -/
def part1Assert : String :=
  "let result = try await day.part1(parsed)\n    #expect(result == \"Not implemented\")"

/-- The `part2` assertion of the generated test (lines 199-200). -/
def part2Assert : String :=
  "let result = try await day.part2(parsed)\n    #expect(result == \"Not implemented\")"

/-- Template `test_file(day, project_name)` (lines 173-204 of the source). -/
def test_file (day : Nat) (project_name : String) : String :=
  "import Testing\n@testable import "
  ++ project_name
  ++ "\n\nstruct Day"
  ++ pad2 day
  ++ "Tests \x7b\n  let sample = \"\"\"\n  \"\"\"\n\n  @Test\n  func testParse() async throws \x7b\n    let day = Day"
  ++ pad2 day
  ++ "()\n    let parsed = try await day.parse(sample)\n    #expect(parsed.isEmpty == false)\n  \x7d\n\n  @Test\n  func testPart1() async throws \x7b\n    let day = Day"
  ++ pad2 day
  ++ "()\n    let parsed = try await day.parse(sample)\n    "
  ++ part1Assert
  ++ "\n  \x7d\n\n  @Test\n  func testPart2() async throws \x7b\n    let day = Day"
  ++ pad2 day
  ++ "()\n    let parsed = try await day.parse(sample)\n    "
  ++ part2Assert
  ++ "\n  \x7d\n\x7d\n"

/-- Template `readme_file(year, project_name)` (lines 206-280 of the source;
the `project_name` parameter is accepted but unused, as in the source). -/
def readme_file (year : Int) (project_name : String) : String :=
  "# Advent of Code "
  ++ toString year
  ++ " - Swift\n\nSwift solutions for the Advent of Code "
  ++ toString year
  ++ " challenges.\n\n## ⚙️ Setup & Configuration\n\n### 1. Input Downloading\nThis project is configured to automatically download your puzzle input if the local file in Sources/Inputs/ is missing or empty. To enable this, you must provide your session cookie.\n\n**How to get your session cookie:**\n1. Log in to adventofcode.com.\n2. Open Chrome/Safari Developer Tools (Right click anywhere on the page -> Inspect).\n3. Go to the **Network** tab.\n4. Refresh the page.\n5. Click the request for the page (usually the top one, e.g., adventofcode.com).\n6. Look at the **Request Headers** section for the header named Cookie.\n7. Copy the long alphanumeric string value for session (copy the value *after* session=).\n\n### 2. Environment Variable\nYou must set the environment variable AOC_SESSION to the value you copied above.\n\n---\n\n## 🚀 Running via Command Line (CLI)\n\nYou can run specific days using swift run.\n\n**Syntax:**\n```bash\nswift run AdventOfCode"
  ++ toString year
  ++ " <subcommand>\n```\n\n**Examples:**\n\nRun Day 1:\n```bash\nswift run AdventOfCode"
  ++ toString year
  ++ " day01\n```\n\n---\n\n## 🛠️ Running via Xcode\n\nDouble-click Package.swift to open the project in Xcode.\n\n### Setting up the Run Scheme\nTo run the app, you need to tell Xcode **which day** to run and provide the **session cookie**.\n\n\n\n#### Step 1: Open the Scheme Editor\n1. Click the target name AdventOfCode"
  ++ toString year
  ++ " in the top toolbar (next to the Play/Stop buttons).\n2. Select **\"Edit Scheme...\"** from the dropdown menu (or press Cmd + <).\n3. Ensure **Run** is selected in the left sidebar.\n\n#### Step 2: Add the Day (Argument)\n1. Click the **Arguments** tab in the center.\n2. Look at the top section: **\"Arguments Passed On Launch\"**.\n3. Click the + button.\n4. Enter the subcommand for the day you want to solve (e.g., day01).\n   * *Note: When you move to the next day, you must return here, delete day01, and add day02.*\n\n#### Step 3: Add the Cookie (Environment Variable)\n1. Still in the **Arguments** tab, look at the bottom section: **\"Environment Variables\"**.\n2. Click the + button.\n3. **Name:** AOC_SESSION\n4. **Value:** Paste your session cookie string here.\n5. Ensure the checkbox next to it is checked.\n\n#### Step 4: Run\n1. Close the Scheme dialog.\n2. Press **Cmd + R** to run the solution.\n3. The output will appear in the bottom Console area.\n"

/-- One `write(path, contents)` call of the generator; `path` is the list of
path segments relative to the working directory. -/
structure WriteEvent where
  path : List String
  contents : String
deriving DecidableEq, Repr

/-- Path `project_dir / "Sources" / project_name` (line 293). -/
def sourcesDir (year : Int) : List String :=
  [projectName year, "Sources", projectName year]

/-- Path `project_dir / "Tests" / f"{project_name}Tests"` (line 294). -/
def testsDir (year : Int) : List String :=
  [projectName year, "Tests", projectName year ++ "Tests"]

/-- Path `sources / "Inputs"` (line 295). -/
def inputsDir (year : Int) : List String :=
  sourcesDir year ++ ["Inputs"]

/-- The subcommand registry accumulated by the per-day loop
(lines 302-305): `f"Day{day:02d}.self"` for `day in range(1, days + 1)`. -/
def subcommands (days : Int) : List String :=
  (List.range' 1 days.toNat).map (fun day => "Day" ++ pad2 day ++ ".self")

/-- The three writes performed by one iteration of the per-day loop
(lines 307-309): implementation file, test file, empty input placeholder. -/
def dayWrites (year : Int) (day : Nat) : List WriteEvent :=
  [⟨sourcesDir year ++ ["Day" ++ pad2 day ++ ".swift"], day_file day⟩,
   ⟨testsDir year ++ ["Day" ++ pad2 day ++ "Tests.swift"], test_file day (projectName year)⟩,
   ⟨inputsDir year ++ ["day" ++ pad2 day ++ ".txt"], ""⟩]

/-- The full sequence of `write` calls performed by `main` for inputs
`(year, days)`, in program order (lines 297-311). -/
def generatedWrites (year days : Int) : List WriteEvent :=
  [⟨[projectName year, "Package.swift"], package_swift (projectName year)⟩,
   ⟨[projectName year, ".gitignore"], gitignore_contents⟩,
   ⟨[projectName year, "README.md"], readme_file year (projectName year)⟩,
   ⟨sourcesDir year ++ ["AdventOfCodeDay.swift"], protocol_file year⟩]
  ++ (List.range' 1 days.toNat).flatMap (dayWrites year)
  ++ [⟨sourcesDir year ++ ["AdventOfCode.swift"], root_cli (subcommands days) year⟩]

/-- Filesystem abstraction: a partial map from paths to file contents. -/
def FS : Type := List String → Option String

/-- Semantics of `write` (lines 8-10): create parents as needed, then
overwrite the file at `path` with `contents`. -/
def applyWrite (σ : FS) (w : WriteEvent) : FS :=
  fun p => if p = w.path then some w.contents else σ p

/-- Run a sequence of writes left to right. -/
def applyWrites (σ : FS) (ws : List WriteEvent) : FS :=
  ws.foldl applyWrite σ

/-- Run a sequence of writes against a filesystem in which writing to a path
`p` with `fails p = true` raises: execution stops at the first failing write
(nothing is rolled back) and the flag records whether an error propagated. -/
def runWrites (fails : List String → Bool) : List WriteEvent → FS → FS × Bool
  | [], σ => (σ, false)
  | w :: ws, σ =>
    if fails w.path then (σ, true) else runWrites fails ws (applyWrite σ w)

/-- Usage string printed when fewer than two arguments are given (line 284). -/
def usageLine : String :=
  "Usage: python generate_aoc_project.py <year> <number_of_days>"

/-- Success summary printed at the end of `main` (line 325). -/
def summaryLine (year days : Int) : String :=
  "Generated Advent of Code Swift project for " ++ toString year ++ " with "
  ++ toString days ++ " days!"

/-- The three git commands run by the bootstrap (lines 314-320). -/
def gitCommands (year : Int) : List (List String) :=
  [["git", "init"],
   ["git", "add", "."],
   ["git", "commit", "-m", "Initial Advent of Code " ++ toString year ++ " project"]]

/-- Run the git commands in order against an environment oracle mapping each
command to `none` (success) or `some msg` (a raised exception with message
`msg`, e.g. missing executable or non-zero exit under `check=True`); the
first failure stops the sequence and is the propagated exception. -/
def runGit (env : List String → Option String) : List (List String) → Option String
  | [] => none
  | c :: cs =>
    match env c with
    | some e => some e
    | none => runGit env cs

/-- Process exit behaviour: a normal exit code, or termination by an
uncaught exception (Python prints a traceback and exits non-zero). -/
inductive ExitStatus where
  | code (n : Nat)
  | uncaught (msg : String)
deriving DecidableEq, Repr

/-- Observable behaviour of one run: file writes performed, lines printed to
standard output, and how the process terminated. -/
structure Trace where
  writes : List WriteEvent
  stdout : List String
  exitStatus : ExitStatus
deriving DecidableEq, Repr

/-- Behaviour of `main` after successful argument parsing (lines 287-325):
write all files, attempt the git bootstrap (best effort), print the summary,
return normally. -/
def generateRun (year days : Int) (git : List String → Option String) : Trace :=
  { writes := generatedWrites year days,
    stdout :=
      (match runGit git (gitCommands year) with
       | none => ["Initialized git repository."]
       | some e => ["Warning: Git initialization failed: " ++ e])
      ++ [summaryLine year days],
    exitStatus := .code 0 }

/-- Single step of decimal decoding: `a * 10 + digit value of c`. -/
def decodeStep (a : Nat) (c : Char) : Nat :=
  10 * a + (c.toNat - 48)

/-- Value of a list of decimal digit characters. -/
def decodeDigits (cs : List Char) : Nat :=
  cs.foldl decodeStep 0

/-- Python `int()` digit-group syntax after the optional sign: nonempty,
digits and underscores only, starts and ends with a digit, and no two
consecutive underscores. -/
def digitGroupOk (cs : List Char) : Bool :=
  !cs.isEmpty
  && cs.all (fun c => c.isDigit || c == '_')
  && (match cs.head? with | some c => c.isDigit | none => false)
  && (match cs.getLast? with | some c => c.isDigit | none => false)
  && ((cs.zip cs.tail).all (fun p => !(p.1 == '_' && p.2 == '_')))

/-- Numeric value of a valid digit group (underscores ignored). -/
def digitsValue (cs : List Char) : Nat :=
  decodeDigits (cs.filter (fun c => c.isDigit))

/-- Characters of `s` with surrounding whitespace stripped. -/
def stripChars (s : String) : List Char :=
  ((s.data.dropWhile (fun c => c.isWhitespace)).reverse.dropWhile
    (fun c => c.isWhitespace)).reverse

/-- Python `int(s)` for a decimal string: strip surrounding whitespace,
optional sign, then a digit group; `none` models a raised `ValueError`. -/
def pyInt (s : String) : Option Int :=
  match stripChars s with
  | '+' :: rest => if digitGroupOk rest then some (Int.ofNat (digitsValue rest)) else none
  | '-' :: rest => if digitGroupOk rest then some (-(Int.ofNat (digitsValue rest))) else none
  | rest => if digitGroupOk rest then some (Int.ofNat (digitsValue rest)) else none

/-- The whole of `main` (lines 282-325) as a function of `sys.argv` and the
git oracle.  Fewer than two positional arguments: print usage, exit 1.
Unparseable year or day count: uncaught `ValueError`, nothing written.
Otherwise: perform all writes, attempt git, print the summary, exit 0. -/
def pyMain (argv : List String) (git : List String → Option String) : Trace :=
  if argv.length < 3 then
    { writes := [], stdout := [usageLine], exitStatus := .code 1 }
  else
    match pyInt (argv.getD 1 "") with
    | none => { writes := [], stdout := [], exitStatus := .uncaught "ValueError" }
    | some year =>
      match pyInt (argv.getD 2 "") with
      | none => { writes := [], stdout := [], exitStatus := .uncaught "ValueError" }
      | some days => generateRun year days git

/-- String `sub` occurs (contiguously) inside `s`. -/
def containsText (s sub : String) : Prop :=
  ∃ p q, s = p ++ sub ++ q

end AocGen

namespace AocGen

/-! ### Decimal representation: decoding round-trip and injectivity -/

theorem decodeStep_digitChar (a m : Nat) (h : m < 10) :
    decodeStep a (Nat.digitChar m) = 10 * a + m := by
  interval_cases m <;> rfl

theorem toDigitsCore_foldl (fuel : Nat) :
    ∀ n acc, n < fuel →
      (Nat.toDigitsCore 10 fuel n acc).foldl decodeStep 0 = acc.foldl decodeStep n := by
  induction fuel with
  | zero => intro n acc h; exact absurd h (Nat.not_lt_zero n)
  | succ f ih =>
    intro n acc h
    by_cases h10 : n / 10 = 0
    · have hn : n < 10 := by omega
      simp only [Nat.toDigitsCore, h10, if_true]
      rw [List.foldl_cons, decodeStep_digitChar 0 (n % 10) (Nat.mod_lt _ (by norm_num))]
      congr 1
      omega
    · simp only [Nat.toDigitsCore, h10, if_false]
      rw [ih (n / 10) _ (by omega), List.foldl_cons,
        decodeStep_digitChar _ (n % 10) (Nat.mod_lt _ (by norm_num))]
      congr 1
      omega

theorem decode_repr (n : Nat) : decodeDigits (Nat.repr n).data = n :=
  toDigitsCore_foldl (n + 1) n [] (Nat.lt_succ_self n)

theorem decode_pad2 (n : Nat) : decodeDigits (pad2 n).data = n := by
  unfold pad2
  split
  · have h : ("0" ++ Nat.repr n).data = '0' :: (Nat.repr n).data := by
      rw [String.data_append]; rfl
    rw [h]
    show List.foldl decodeStep (decodeStep 0 '0') (Nat.repr n).data = n
    have h0 : decodeStep 0 '0' = 0 := rfl
    rw [h0]
    exact decode_repr n
  · exact decode_repr n

theorem pad2_inj {a b : Nat} (h : pad2 a = pad2 b) : a = b := by
  have h2 := congrArg (fun s => decodeDigits s.data) h
  simpa [decode_pad2] using h2

/-- Cancel a common constant wrapper around a padded day number. -/
theorem wrap_pad2_inj (p s : String) {a b : Nat}
    (h : p ++ pad2 a ++ s = p ++ pad2 b ++ s) : a = b := by
  have hd := congrArg String.data h
  simp only [String.data_append, List.append_assoc] at hd
  exact pad2_inj (String.ext (List.append_cancel_right (List.append_cancel_left hd)))

/-! ### Generic discriminators for generated names and paths -/

theorem ne_of_length_ne {α : Type} {xs ys : List α} (h : xs.length ≠ ys.length) :
    xs ≠ ys := fun e => h (congrArg List.length e)

theorem head_append_Day (x : String) : ("Day" ++ x).data.head? = some 'D' := by
  rw [String.data_append]; rfl

theorem Day_ne_of_head {y : String} (hy : y.data.head? ≠ some 'D') (x : String) :
    "Day" ++ x ≠ y :=
  fun e => hy (by rw [← e, head_append_Day])

theorem pair_ne (pn : String) {a b : String} (hne : a ≠ b) : [pn, a] ≠ [pn, b] := by
  simp [List.cons.injEq, hne]

theorem src_name_inj (year : Int) {a b : String}
    (h : sourcesDir year ++ [a] = sourcesDir year ++ [b]) : a = b := by
  simpa using List.append_cancel_left h

theorem tst_name_inj (year : Int) {a b : String}
    (h : testsDir year ++ [a] = testsDir year ++ [b]) : a = b := by
  simpa using List.append_cancel_left h

theorem inp_name_inj (year : Int) {a b : String}
    (h : inputsDir year ++ [a] = inputsDir year ++ [b]) : a = b := by
  simpa using List.append_cancel_left h

theorem src_ne_tst (year : Int) (a b : String) :
    sourcesDir year ++ [a] ≠ testsDir year ++ [b] := by
  intro h
  simp [sourcesDir, testsDir, List.cons.injEq] at h

theorem src_ne_inp (year : Int) (a b : String) :
    sourcesDir year ++ [a] ≠ inputsDir year ++ [b] :=
  ne_of_length_ne (by simp [sourcesDir, inputsDir])

theorem tst_ne_inp (year : Int) (a b : String) :
    testsDir year ++ [a] ≠ inputsDir year ++ [b] :=
  ne_of_length_ne (by simp [sourcesDir, testsDir, inputsDir])

theorem rootPair_ne_src (year : Int) (a b : String) :
    [projectName year, a] ≠ sourcesDir year ++ [b] :=
  ne_of_length_ne (by simp [sourcesDir])

theorem rootPair_ne_tst (year : Int) (a b : String) :
    [projectName year, a] ≠ testsDir year ++ [b] :=
  ne_of_length_ne (by simp [testsDir])

theorem rootPair_ne_inp (year : Int) (a b : String) :
    [projectName year, a] ≠ inputsDir year ++ [b] :=
  ne_of_length_ne (by simp [sourcesDir, inputsDir])

/-- A generated day name `Day<NN><suffix>` never equals a string that does
not start with `'D'`. -/
theorem dayName_ne_const (d : Nat) (s : String) {y : String}
    (hy : y.data.head? ≠ some 'D') : "Day" ++ pad2 d ++ s ≠ y := by
  rw [String.append_assoc]
  exact Day_ne_of_head hy _

theorem mem_dayPaths_shape {year : Int} {d : Nat} {p : List String}
    (h : p ∈ (dayWrites year d).map WriteEvent.path) :
    p = sourcesDir year ++ ["Day" ++ pad2 d ++ ".swift"] ∨
    p = testsDir year ++ ["Day" ++ pad2 d ++ "Tests.swift"] ∨
    p = inputsDir year ++ ["day" ++ pad2 d ++ ".txt"] := by
  simpa [dayWrites] using h

theorem dayPaths_nodup (year : Int) (d : Nat) :
    ((dayWrites year d).map WriteEvent.path).Nodup := by
  simp only [dayWrites, List.map_cons, List.map_nil]
  refine List.nodup_cons.mpr ⟨?_, List.nodup_cons.mpr ⟨?_, List.nodup_singleton _⟩⟩
  · intro hmem
    rcases List.mem_cons.mp hmem with h | h
    · exact src_ne_tst year _ _ h
    · rcases List.mem_singleton.mp h with h
      exact src_ne_inp year _ _ h
  · intro hmem
    rcases List.mem_singleton.mp hmem with h
    exact tst_ne_inp year _ _ h

theorem dayPaths_disjoint (year : Int) {d e : Nat} (hne : d ≠ e) :
    List.Disjoint ((dayWrites year d).map WriteEvent.path)
      ((dayWrites year e).map WriteEvent.path) := by
  intro p hp hq
  rcases mem_dayPaths_shape hp with rfl | rfl | rfl <;>
    rcases mem_dayPaths_shape hq with he | he | he
  · exact hne (wrap_pad2_inj "Day" ".swift" (by simpa using src_name_inj year he))
  · exact src_ne_tst year _ _ he
  · exact src_ne_inp year _ _ he
  · exact src_ne_tst year _ _ he.symm
  · exact hne (wrap_pad2_inj "Day" "Tests.swift" (by simpa using tst_name_inj year he))
  · exact tst_ne_inp year _ _ he
  · exact src_ne_inp year _ _ he.symm
  · exact tst_ne_inp year _ _ he.symm
  · exact hne (wrap_pad2_inj "day" ".txt" (by simpa using inp_name_inj year he))

/-- The paths written by one run, in program order: three project-root
files, the day-abstraction file, then per day the implementation, test and
input files, then the root entry point. -/
theorem generatedPaths_eq (year days : Int) :
    (generatedWrites year days).map WriteEvent.path =
      [[projectName year, "Package.swift"],
       [projectName year, ".gitignore"],
       [projectName year, "README.md"],
       sourcesDir year ++ ["AdventOfCodeDay.swift"]]
      ++ (List.range' 1 days.toNat).flatMap (fun d =>
           [sourcesDir year ++ ["Day" ++ pad2 d ++ ".swift"],
            testsDir year ++ ["Day" ++ pad2 d ++ "Tests.swift"],
            inputsDir year ++ ["day" ++ pad2 d ++ ".txt"]])
      ++ [sourcesDir year ++ ["AdventOfCode.swift"]] := by
  simp [generatedWrites, dayWrites, List.map_flatMap]

/-- No two writes of one run target the same path. -/
theorem generatedPaths_nodup (year days : Int) :
    ((generatedWrites year days).map WriteEvent.path).Nodup := by
  rw [generatedWrites]
  simp only [List.map_append, List.map_flatMap, List.map_cons, List.map_nil]
  rw [List.nodup_append, List.nodup_append]
  refine ⟨⟨?_, ?_, ?_⟩, List.nodup_singleton _, ?_⟩
  · -- the four fixed leading paths are pairwise distinct
    refine List.nodup_cons.mpr ⟨?_, List.nodup_cons.mpr ⟨?_,
      List.nodup_cons.mpr ⟨?_, List.nodup_singleton _⟩⟩⟩
    · intro hmem
      rcases List.mem_cons.mp hmem with h | hmem
      · exact pair_ne _ (by decide) h
      rcases List.mem_cons.mp hmem with h | hmem
      · exact pair_ne _ (by decide) h
      rcases List.mem_singleton.mp hmem with h
      exact rootPair_ne_src year _ _ h
    · intro hmem
      rcases List.mem_cons.mp hmem with h | hmem
      · exact pair_ne _ (by decide) h
      rcases List.mem_singleton.mp hmem with h
      exact rootPair_ne_src year _ _ h
    · intro hmem
      rcases List.mem_singleton.mp hmem with h
      exact rootPair_ne_src year _ _ h
  · -- the per-day block has no duplicates
    refine List.nodup_flatMap.mpr ⟨fun d _ => dayPaths_nodup year d, ?_⟩
    exact (List.pairwise_lt_range' 1 days.toNat).imp
      (fun hlt => dayPaths_disjoint year (Nat.ne_of_lt hlt))
  · -- the fixed leading paths never collide with a per-day path
    intro p hp hq
    rcases List.mem_flatMap.mp hq with ⟨d, _, hmem⟩
    rcases mem_dayPaths_shape hmem with he | he | he <;>
      [skip; skip; skip] <;>
    · rcases List.mem_cons.mp hp with h1 | hp
      · first
        | exact rootPair_ne_src year _ _ (h1.symm.trans he)
        | exact rootPair_ne_tst year _ _ (h1.symm.trans he)
        | exact rootPair_ne_inp year _ _ (h1.symm.trans he)
      rcases List.mem_cons.mp hp with h1 | hp
      · first
        | exact rootPair_ne_src year _ _ (h1.symm.trans he)
        | exact rootPair_ne_tst year _ _ (h1.symm.trans he)
        | exact rootPair_ne_inp year _ _ (h1.symm.trans he)
      rcases List.mem_cons.mp hp with h1 | hp
      · first
        | exact rootPair_ne_src year _ _ (h1.symm.trans he)
        | exact rootPair_ne_tst year _ _ (h1.symm.trans he)
        | exact rootPair_ne_inp year _ _ (h1.symm.trans he)
      rcases List.mem_singleton.mp hp with h1
      first
      | exact dayName_ne_const d ".swift" (by decide)
          (src_name_inj year (h1.symm.trans he)).symm
      | exact src_ne_tst year _ _ (h1.symm.trans he)
      | exact src_ne_inp year _ _ (h1.symm.trans he)
  · -- nothing earlier collides with the root entry-point path
    intro p hp hq
    rcases List.mem_singleton.mp hq with rfl
    rcases List.mem_append.mp hp with hp | hp
    · rcases List.mem_cons.mp hp with h1 | hp
      · exact rootPair_ne_src year _ _ h1.symm
      rcases List.mem_cons.mp hp with h1 | hp
      · exact rootPair_ne_src year _ _ h1.symm
      rcases List.mem_cons.mp hp with h1 | hp
      · exact rootPair_ne_src year _ _ h1.symm
      rcases List.mem_singleton.mp hp with h1
      exact absurd (src_name_inj year h1.symm) (by decide)
    · rcases List.mem_flatMap.mp hp with ⟨d, _, hmem⟩
      rcases mem_dayPaths_shape hmem with he | he | he
      · exact dayName_ne_const d ".swift" (by decide) (src_name_inj year he).symm
      · exact src_ne_tst year _ _ he
      · exact src_ne_inp year _ _ he

/-! ### Filesystem semantics: last write wins, idempotence, abort behaviour -/

theorem applyWrites_point (ws : List WriteEvent) (σ : FS) (p : List String) :
    applyWrites σ ws p =
      (ws.reverse.find? (fun w => decide (p = w.path))).elim (σ p)
        (fun w => some w.contents) := by
  induction ws generalizing σ with
  | nil => rfl
  | cons w ws ih =>
    show applyWrites (applyWrite σ w) ws p = _
    rw [ih, List.reverse_cons, List.find?_append]
    by_cases hpw : p = w.path
    · have h1 : List.find? (fun u => decide (p = u.path)) [w] = some w := by
        simp [List.find?, hpw]
      have h2 : applyWrite σ w p = some w.contents := by simp [applyWrite, hpw]
      rw [h1, h2]
      cases hf : ws.reverse.find? (fun u => decide (p = u.path)) <;> rfl
    · have h1 : List.find? (fun u => decide (p = u.path)) [w] = none := by
        simp [List.find?, hpw]
      have h2 : applyWrite σ w p = σ p := by simp [applyWrite, hpw]
      rw [h1, h2]
      cases hf : ws.reverse.find? (fun u => decide (p = u.path)) <;> rfl

theorem applyWrites_idem (ws : List WriteEvent) (σ : FS) :
    applyWrites (applyWrites σ ws) ws = applyWrites σ ws := by
  funext p
  rw [applyWrites_point, applyWrites_point (σ := σ)]
  cases hf : ws.reverse.find? (fun w => decide (p = w.path)) with
  | none => simp only [Option.elim]
  | some u => rfl

theorem applyWrites_deterministic (ws : List WriteEvent) (σ σ₂ : FS)
    (p : List String) (hp : p ∈ ws.map WriteEvent.path) :
    applyWrites σ ws p = applyWrites σ₂ ws p := by
  rw [applyWrites_point, applyWrites_point]
  rcases List.mem_map.mp hp with ⟨w, hw, rfl⟩
  have hex : ∃ u ∈ ws.reverse, (fun u => decide (w.path = u.path)) u = true :=
    ⟨w, List.mem_reverse.mpr hw, by simp⟩
  have hs := List.find?_isSome.mpr hex
  cases hf : ws.reverse.find? (fun u => decide (w.path = u.path)) with
  | none => rw [hf] at hs; simp at hs
  | some u => rfl

theorem runWrites_abort (fails : List String → Bool) :
    ∀ (ws : List WriteEvent) (σ : FS) (k : Nat), k < ws.length →
      (∀ j, j < k → fails ((ws.getD j ⟨[], ""⟩).path) = false) →
      fails ((ws.getD k ⟨[], ""⟩).path) = true →
      runWrites fails ws σ = (applyWrites σ (ws.take k), true) := by
  intro ws
  induction ws with
  | nil => intro σ k hk _ _; exact absurd hk (by simp)
  | cons w ws ih =>
    intro σ k hk hbefore hfail
    cases k with
    | zero =>
      have h0 : fails w.path = true := by simpa [List.getD] using hfail
      simp [runWrites, h0, applyWrites]
    | succ j =>
      have h0 : fails w.path = false := by
        simpa [List.getD] using hbefore 0 (Nat.succ_pos j)
      have hres := ih (applyWrite σ w) j (by simpa using hk)
        (fun i hi => by simpa [List.getD] using hbefore (i + 1) (by omega))
        (by simpa [List.getD] using hfail)
      simp only [runWrites, h0, Bool.false_eq_true, if_false, List.take_succ_cons]
      rw [hres]
      rfl

/-! ### Claim theorems -/

/-- C1: for every run with inputs `(year, N)` the generator performs,
besides the four fixed leading writes and the final root entry-point write,
exactly the writes `Day<NN>.swift`, `Day<NN>Tests.swift` and `day<NN>.txt`
for each day `1..N` with the day index zero-padded to two digits
(`pad2 3 = "03"`, `pad2 12 = "12"`), all 3N + 5 target paths being
distinct, so exactly `N` files of each of the three day-indexed kinds and
no other day-indexed file are created. -/
theorem claim1_per_day_files (year : Int) (N : Nat) :
    ((generatedWrites year (N : Int)).map WriteEvent.path =
      [[projectName year, "Package.swift"],
       [projectName year, ".gitignore"],
       [projectName year, "README.md"],
       sourcesDir year ++ ["AdventOfCodeDay.swift"]]
      ++ (List.range' 1 N).flatMap (fun d =>
           [sourcesDir year ++ ["Day" ++ pad2 d ++ ".swift"],
            testsDir year ++ ["Day" ++ pad2 d ++ "Tests.swift"],
            inputsDir year ++ ["day" ++ pad2 d ++ ".txt"]])
      ++ [sourcesDir year ++ ["AdventOfCode.swift"]])
    ∧ ((generatedWrites year (N : Int)).map WriteEvent.path).Nodup
    ∧ (List.range' 1 N).length = N
    ∧ pad2 3 = "03" ∧ pad2 12 = "12" := by
  refine ⟨?_, generatedPaths_nodup year (N : Int), List.length_range' 1 1 N,
    by decide, by decide⟩
  have h := generatedPaths_eq year (N : Int)
  simpa using h

/-- C3: generation is deterministic and idempotent: running the write
sequence twice leaves the same filesystem as running it once, and the
resulting contents at every generated path are independent of the initial
filesystem state, hence a pure function of `(year, days)` alone. -/
theorem claim3_deterministic_idempotent (year days : Int) (σ σ₂ : FS) :
    applyWrites (applyWrites σ (generatedWrites year days)) (generatedWrites year days)
      = applyWrites σ (generatedWrites year days)
    ∧ ∀ p, p ∈ (generatedWrites year days).map WriteEvent.path →
        applyWrites σ (generatedWrites year days) p
          = applyWrites σ₂ (generatedWrites year days) p :=
  ⟨applyWrites_idem _ σ, fun p hp => applyWrites_deterministic _ σ σ₂ p hp⟩

/-- Witness for C3 at `(year, days) = (2024, 1)` and the manifest path. -/
theorem claim3_witness :
    applyWrites (fun _ => none) (generatedWrites 2024 1)
        ["AdventOfCode2024", "Package.swift"]
      = applyWrites (fun _ => some "stale") (generatedWrites 2024 1)
        ["AdventOfCode2024", "Package.swift"] :=
  (claim3_deterministic_idempotent 2024 1 (fun _ => none) (fun _ => some "stale")).2
    ["AdventOfCode2024", "Package.swift"] (by decide)

/-- C4: the subcommand registry embedded in the root entry point lists
exactly the days `1..N` (`N = days.toNat`), in strictly ascending day order
with no gaps and no duplicate entries. -/
theorem claim4_subcommand_registry (days : Int) :
    subcommands days
      = (List.range' 1 days.toNat).map (fun d => "Day" ++ pad2 d ++ ".self")
    ∧ (subcommands days).length = days.toNat
    ∧ List.Pairwise (· < ·) (List.range' 1 days.toNat)
    ∧ (subcommands days).Nodup := by
  refine ⟨rfl, by simp [subcommands], List.pairwise_lt_range' 1 days.toNat 1, ?_⟩
  exact List.Nodup.map (fun a b h => wrap_pad2_inj "Day" ".self" h)
    (List.nodup_range' 1 days.toNat)

/-- C5: every generated day-implementation file contains a `parse` whose
body trims surrounding whitespace and `part1`/`part2` bodies returning the
exact literal `"Not implemented"`, and every generated test file contains
assertions comparing `part1`/`part2` output with that same literal. -/
theorem claim5_placeholders (d : Nat) (pn : String) :
    containsText (day_file d) parseBlock
    ∧ containsText (day_file d) part1Block
    ∧ containsText (day_file d) part2Block
    ∧ containsText (test_file d pn) part1Assert
    ∧ containsText (test_file d pn) part2Assert
    ∧ parseBlock = "func parse(_ input: String) async throws -> String \x7b\n    input.trimmingCharacters(in: .whitespacesAndNewlines)\n  \x7d"
    ∧ part1Block = "func part1(_ input: String) async throws -> String \x7b\n    \"Not implemented\"\n  \x7d"
    ∧ part2Block = "func part2(_ input: String) async throws -> String \x7b\n    \"Not implemented\"\n  \x7d"
    ∧ part1Assert = "let result = try await day.part1(parsed)\n    #expect(result == \"Not implemented\")"
    ∧ part2Assert = "let result = try await day.part2(parsed)\n    #expect(result == \"Not implemented\")" := by
  refine ⟨?_, ?_, ?_, ?_, ?_, rfl, rfl, rfl, rfl, rfl⟩
  · exact ⟨"import ArgumentParser\n\nstruct Day" ++ pad2 d
      ++ ": AdventOfCodeDay \x7b\n  static let day = " ++ Nat.repr d ++ "\n\n  ",
      "\n\n  " ++ part1Block ++ "\n\n  " ++ part2Block ++ "\n\x7d\n",
      by simp [day_file, String.append_assoc]⟩
  · exact ⟨"import ArgumentParser\n\nstruct Day" ++ pad2 d
      ++ ": AdventOfCodeDay \x7b\n  static let day = " ++ Nat.repr d ++ "\n\n  "
      ++ parseBlock ++ "\n\n  ",
      "\n\n  " ++ part2Block ++ "\n\x7d\n",
      by simp [day_file, String.append_assoc]⟩
  · exact ⟨"import ArgumentParser\n\nstruct Day" ++ pad2 d
      ++ ": AdventOfCodeDay \x7b\n  static let day = " ++ Nat.repr d ++ "\n\n  "
      ++ parseBlock ++ "\n\n  " ++ part1Block ++ "\n\n  ",
      "\n\x7d\n",
      by simp [day_file, String.append_assoc]⟩
  · exact ⟨"import Testing\n@testable import " ++ pn ++ "\n\nstruct Day" ++ pad2 d
      ++ "Tests \x7b\n  let sample = \"\"\"\n  \"\"\"\n\n  @Test\n  func testParse() async throws \x7b\n    let day = Day"
      ++ pad2 d
      ++ "()\n    let parsed = try await day.parse(sample)\n    #expect(parsed.isEmpty == false)\n  \x7d\n\n  @Test\n  func testPart1() async throws \x7b\n    let day = Day"
      ++ pad2 d
      ++ "()\n    let parsed = try await day.parse(sample)\n    ",
      "\n  \x7d\n\n  @Test\n  func testPart2() async throws \x7b\n    let day = Day"
      ++ pad2 d
      ++ "()\n    let parsed = try await day.parse(sample)\n    "
      ++ part2Assert ++ "\n  \x7d\n\x7d\n",
      by simp [test_file, String.append_assoc]⟩
  · exact ⟨"import Testing\n@testable import " ++ pn ++ "\n\nstruct Day" ++ pad2 d
      ++ "Tests \x7b\n  let sample = \"\"\"\n  \"\"\"\n\n  @Test\n  func testParse() async throws \x7b\n    let day = Day"
      ++ pad2 d
      ++ "()\n    let parsed = try await day.parse(sample)\n    #expect(parsed.isEmpty == false)\n  \x7d\n\n  @Test\n  func testPart1() async throws \x7b\n    let day = Day"
      ++ pad2 d
      ++ "()\n    let parsed = try await day.parse(sample)\n    "
      ++ part1Assert
      ++ "\n  \x7d\n\n  @Test\n  func testPart2() async throws \x7b\n    let day = Day"
      ++ pad2 d
      ++ "()\n    let parsed = try await day.parse(sample)\n    ",
      "\n  \x7d\n\x7d\n",
      by simp [test_file, String.append_assoc]⟩

/-- C7: if the write at position `k` of the program-order sequence raises a
filesystem error while all earlier writes succeed, the run aborts exactly
there: the error propagates (abort flag), no later write is performed, and
the filesystem is left as the state after the first `k` writes — no
rollback. -/
theorem claim7_write_error_aborts (year days : Int) (fails : List String → Bool)
    (σ : FS) (k : Nat) (hk : k < (generatedWrites year days).length)
    (hbefore : ∀ j, j < k →
      fails (((generatedWrites year days).getD j ⟨[], ""⟩).path) = false)
    (hfail : fails (((generatedWrites year days).getD k ⟨[], ""⟩).path) = true) :
    runWrites fails (generatedWrites year days) σ
      = (applyWrites σ ((generatedWrites year days).take k), true) :=
  runWrites_abort fails (generatedWrites year days) σ k hk hbefore hfail

/-- Witness for C7: with `(year, days) = (2024, 1)` and a filesystem that
fails exactly on the `day01.txt` placeholder (write index 6), the run
aborts right there with the six earlier writes in place. -/
theorem claim7_witness :
    runWrites
        (fun p => p == ["AdventOfCode2024", "Sources", "AdventOfCode2024", "Inputs", "day01.txt"])
        (generatedWrites 2024 1) (fun _ => none)
      = (applyWrites (fun _ => none) ((generatedWrites 2024 1).take 6), true) :=
  claim7_write_error_aborts 2024 1 _ _ 6 (by decide) (by decide) (by decide)

/-- C6: with fewer than two positional arguments (`len(sys.argv) < 3`) the
program prints the usage string to standard output, exits with status 1,
and performs no write at all. -/
theorem claim6_usage_exit (argv : List String) (git : List String → Option String)
    (h : argv.length < 3) :
    pyMain argv git
      = { writes := [], stdout := [usageLine], exitStatus := .code 1 } := by
  simp [pyMain, h]

/-- Witness for C6: invoked with the script name and no arguments. -/
theorem claim6_witness :
    pyMain ["generate_aoc_project.py"] (fun _ => none)
      = { writes := [], stdout := [usageLine], exitStatus := .code 1 } :=
  claim6_usage_exit ["generate_aoc_project.py"] (fun _ => none) (by decide)

/-- C8: a git bootstrap failure (the environment reports an exception `e`
for the first failing command) is caught: the run still performs every
write, prints a warning naming the underlying cause followed by the
success summary, and exits normally with status 0. -/
theorem claim8_git_failure_nonfatal (year days : Int)
    (git : List String → Option String) (e : String)
    (h : runGit git (gitCommands year) = some e) :
    generateRun year days git
      = { writes := generatedWrites year days,
          stdout := ["Warning: Git initialization failed: " ++ e,
                     summaryLine year days],
          exitStatus := .code 0 }
    ∧ (generateRun year days git).writes
        = (generateRun year days (fun _ => none)).writes := by
  constructor
  · simp [generateRun, h]
  · rfl

/-- Witness for C8: missing git executable, `(year, days) = (2024, 3)`. -/
theorem claim8_witness :
    generateRun 2024 3 (fun _ => some "No such file or directory: git")
      = { writes := generatedWrites 2024 3,
          stdout := ["Warning: Git initialization failed: No such file or directory: git",
                     summaryLine 2024 3],
          exitStatus := .code 0 } :=
  (claim8_git_failure_nonfatal 2024 3 (fun _ => some "No such file or directory: git")
    "No such file or directory: git" rfl).1

/-- C9: a day count below 1 is not rejected: the per-day loop contributes
nothing, yet the manifest, ignore file, README, shared abstraction file and
a root entry point built from an empty subcommand registry are still
written, the git bootstrap still runs (its outcome printed as usual), the
success summary is still printed, and the process exits normally. -/
theorem claim9_nonpositive_days (year days : Int)
    (git : List String → Option String) (h : days ≤ 0) :
    generatedWrites year days
      = [⟨[projectName year, "Package.swift"], package_swift (projectName year)⟩,
         ⟨[projectName year, ".gitignore"], gitignore_contents⟩,
         ⟨[projectName year, "README.md"], readme_file year (projectName year)⟩,
         ⟨sourcesDir year ++ ["AdventOfCodeDay.swift"], protocol_file year⟩,
         ⟨sourcesDir year ++ ["AdventOfCode.swift"], root_cli [] year⟩]
    ∧ subcommands days = []
    ∧ (generateRun year days git).writes = generatedWrites year days
    ∧ (runGit git (gitCommands year) = none →
        (generateRun year days git).stdout
          = ["Initialized git repository.", summaryLine year days])
    ∧ (∀ e, runGit git (gitCommands year) = some e →
        (generateRun year days git).stdout
          = ["Warning: Git initialization failed: " ++ e, summaryLine year days])
    ∧ (generateRun year days git).exitStatus = .code 0 := by
  have h0 : days.toNat = 0 := Int.toNat_of_nonpos h
  refine ⟨?_, ?_, rfl, ?_, ?_, rfl⟩
  · simp [generatedWrites, subcommands, h0]
  · simp [subcommands, h0]
  · intro hg; simp [generateRun, hg]
  · intro e hg; simp [generateRun, hg]

/-- Witness for C9 at `(year, days) = (2024, 0)` with git succeeding. -/
theorem claim9_witness :
    subcommands 0 = []
    ∧ (generateRun 2024 0 (fun _ => none)).stdout
        = ["Initialized git repository.", summaryLine 2024 0] :=
  ⟨(claim9_nonpositive_days 2024 0 (fun _ => none) (by decide)).2.1,
   (claim9_nonpositive_days 2024 0 (fun _ => none) (by decide)).2.2.2.1 rfl⟩

/-- C10: if either positional argument is present but not a valid decimal
integer literal, the run terminates via an uncaught conversion error before
any write is performed, and the usage string is not printed. -/
theorem claim10_bad_integer (prog a b : String) (rest : List String)
    (git : List String → Option String)
    (h : pyInt a = none ∨ pyInt b = none) :
    pyMain (prog :: a :: b :: rest) git
      = { writes := [], stdout := [], exitStatus := .uncaught "ValueError" } := by
  have hlen : ¬ (prog :: a :: b :: rest).length < 3 := by simp
  rcases h with h | h
  · simp [pyMain, hlen, List.getD_cons_succ, List.getD_cons_zero, h]
  · cases ha : pyInt a with
    | none => simp [pyMain, hlen, List.getD_cons_succ, List.getD_cons_zero, ha]
    | some y => simp [pyMain, hlen, List.getD_cons_succ, List.getD_cons_zero, ha, h]

/-- Witness for C10: a malformed year argument. -/
theorem claim10_witness :
    pyMain ["generate_aoc_project.py", "20x4", "3"] (fun _ => none)
      = { writes := [], stdout := [], exitStatus := .uncaught "ValueError" } :=
  claim10_bad_integer "generate_aoc_project.py" "20x4" "3" [] (fun _ => none)
    (Or.inl (by decide))

/-- Data-level sufficient condition for `containsText`. -/
theorem containsText_of_data (s sub : String) (h : sub.data <:+: s.data) :
    containsText s sub := by
  obtain ⟨l₁, l₂, hh⟩ := h
  refine ⟨⟨l₁⟩, ⟨l₂⟩, String.ext ?_⟩
  rw [String.data_append, String.data_append]
  exact hh.symm

/-- C2 counterexample: the run `generate(2024, 3)` also writes `README.md`,
a file outside the thirteen file names the claim allows ("and nothing
else"). -/
theorem claim2_counterexample :
    ["AdventOfCode2024", "README.md"]
        ∈ (generatedWrites 2024 3).map WriteEvent.path
    ∧ "README.md" ∉ (["Package.swift", ".gitignore", "AdventOfCodeDay.swift",
        "AdventOfCode.swift", "Day01.swift", "Day02.swift", "Day03.swift",
        "Day01Tests.swift", "Day02Tests.swift", "Day03Tests.swift",
        "day01.txt", "day02.txt", "day03.txt"] : List String) := by
  exact ⟨by decide, by decide⟩

set_option maxRecDepth 8192

/-- C2 amended: `generate(2024, 3)` writes exactly fourteen files — the
thirteen the claim lists plus `README.md` — at the paths below in program
order and nothing else; the three `day0N.txt` placeholders are written
empty; and the root entry point lists `Day01.self, Day02.self, Day03.self`
in that order. -/
theorem claim2_amended :
    (generatedWrites 2024 3).map WriteEvent.path
      = [["AdventOfCode2024", "Package.swift"],
         ["AdventOfCode2024", ".gitignore"],
         ["AdventOfCode2024", "README.md"],
         ["AdventOfCode2024", "Sources", "AdventOfCode2024", "AdventOfCodeDay.swift"],
         ["AdventOfCode2024", "Sources", "AdventOfCode2024", "Day01.swift"],
         ["AdventOfCode2024", "Tests", "AdventOfCode2024Tests", "Day01Tests.swift"],
         ["AdventOfCode2024", "Sources", "AdventOfCode2024", "Inputs", "day01.txt"],
         ["AdventOfCode2024", "Sources", "AdventOfCode2024", "Day02.swift"],
         ["AdventOfCode2024", "Tests", "AdventOfCode2024Tests", "Day02Tests.swift"],
         ["AdventOfCode2024", "Sources", "AdventOfCode2024", "Inputs", "day02.txt"],
         ["AdventOfCode2024", "Sources", "AdventOfCode2024", "Day03.swift"],
         ["AdventOfCode2024", "Tests", "AdventOfCode2024Tests", "Day03Tests.swift"],
         ["AdventOfCode2024", "Sources", "AdventOfCode2024", "Inputs", "day03.txt"],
         ["AdventOfCode2024", "Sources", "AdventOfCode2024", "AdventOfCode.swift"]]
    ∧ ((generatedWrites 2024 3).map WriteEvent.path).Nodup
    ∧ (⟨["AdventOfCode2024", "Sources", "AdventOfCode2024", "Inputs", "day01.txt"], ""⟩
        : WriteEvent) ∈ generatedWrites 2024 3
    ∧ (⟨["AdventOfCode2024", "Sources", "AdventOfCode2024", "Inputs", "day02.txt"], ""⟩
        : WriteEvent) ∈ generatedWrites 2024 3
    ∧ (⟨["AdventOfCode2024", "Sources", "AdventOfCode2024", "Inputs", "day03.txt"], ""⟩
        : WriteEvent) ∈ generatedWrites 2024 3
    ∧ subcommands 3 = ["Day01.self", "Day02.self", "Day03.self"]
    ∧ (⟨["AdventOfCode2024", "Sources", "AdventOfCode2024", "AdventOfCode.swift"],
          root_cli ["Day01.self", "Day02.self", "Day03.self"] 2024⟩ : WriteEvent)
        ∈ generatedWrites 2024 3
    ∧ containsText (root_cli (subcommands 3) 2024)
        "Day01.self,\n      Day02.self,\n      Day03.self" := by
  refine ⟨by decide, generatedPaths_nodup 2024 3, by decide, by decide, by decide,
    by decide, by decide, ?_⟩
  exact containsText_of_data _ _ (by decide)
